import Mathlib

/-!
Verification development for the Éclat Dining API backend
(`main.py` + `schemas.py`).

The backend is a FastAPI application over a MongoDB-style document store.
We embed it shallowly:

* a stored document is an association list of string keys to `Val` values
  (mirroring a BSON/JSON object; keys written by this code are unique);
* each Pydantic schema becomes a Lean structure; `model_dump` becomes an
  explicit `dump…` function and re-validation (`Model(**doc)`) becomes a
  `parse…` function returning `Option` (pydantic ignores unknown keys and
  fails loudly on type/constraint violations — a failure surfaces as an
  HTTP 500, which we model as `none`);
* the document store is a `Store` holding one list of documents per
  collection name plus an object-id counter;
* machine floats carry no arithmetic anywhere in this code (`price` is
  only validated against `0` and passed through), so `price` is embedded
  as an exact `Rat`;
* `datetime` values are embedded as `Nat` ordinals (`0` = `datetime.min`,
  the smallest representable timestamp); the current wall-clock time is an
  explicit `now : Nat` argument to every handler that reads the clock.
-/

/-- A single value stored in a document field, mirroring the JSON/BSON
values this backend actually writes: strings, ints, floats (embedded as
exact rationals, since the code never does float arithmetic), booleans,
datetimes (as `Nat` ordinals, `0` = `datetime.min`), null, and the
open-ended flat metadata mapping of `AnalyticsEvent`. -/
inductive Val where
  | vNull : Val
  | vStr (s : String) : Val
  | vInt (n : Int) : Val
  | vRat (q : Rat) : Val
  | vBool (b : Bool) : Val
  | vTime (t : Nat) : Val
  | vStrMap (kvs : List (String × String)) : Val
deriving DecidableEq

/-- A stored document: an association list from field names to values,
mirroring a Python dict in insertion order. -/
abbrev Doc : Type := List (String × Val)

/-- `d.get(k)` on a document: the value at the first occurrence of key
`k`, if any. -/
def lookupKey (d : Doc) (k : String) : Option Val :=
  (d.find? (fun kv => kv.1 = k)).map (fun kv => kv.2)

/-- `d.pop("_id", None)`: drop the `_id` key from a document. -/
def popId (d : Doc) : Doc :=
  d.filter (fun kv => kv.1 ≠ "_id")

/-- `d[k] = v` on a Python dict: replace the value in place if the key is
present (keeping its position), otherwise append the new key at the end. -/
def setKey (d : Doc) (k : String) (v : Val) : Doc :=
  if (d.find? (fun kv => kv.1 = k)).isSome then
    d.map (fun kv => if kv.1 = k then (k, v) else kv)
  else
    d ++ [(k, v)]

/-- Exact-match filter semantics of the document store: every key/value
pair of the filter must appear in the document. -/
def docMatches (flt : List (String × Val)) (d : Doc) : Bool :=
  flt.all (fun kv => lookupKey d kv.1 = some kv.2)

/-- `str(e)[:50]` — the 50-character error-message preview used by the
diagnostics endpoint. -/
def preview (s : String) : String :=
  (s.toList.take 50).asString

/-- Embed an optional string the way `model_dump` serializes
`Optional[str]`: `None` becomes JSON null. -/
def valOfOptStr : Option String → Val
  | none => Val.vNull
  | some s => Val.vStr s

/-- Embed an optional bool (`Optional[bool]`) as a stored value. -/
def valOfOptBool : Option Bool → Val
  | none => Val.vNull
  | some b => Val.vBool b

/-! ### Entity schemas (`schemas.py`) -/

/-- `MenuItem` (schemas.py): name, description?, price ≥ 0, category,
image_url?, featured (default False), vegetarian (default True). -/
structure MenuItem where
  name : String
  description : Option String
  price : Rat
  category : String
  image_url : Option String
  featured : Bool
  vegetarian : Bool
deriving DecidableEq

/-- `Special` (schemas.py): title, description?, discount_percent?
(0–100), valid_until?, hero_image_url?, cta_text (default "Reserve Now"),
active (default True). -/
structure Special where
  title : String
  description : Option String
  discount_percent : Option Int
  valid_until : Option Nat
  hero_image_url : Option String
  cta_text : Option String
  active : Bool
deriving DecidableEq

/-- `Reservation` (schemas.py): name, email, phone?, date, time,
guests (1–20), notes?, paid (default False), payment_reference?. -/
structure Reservation where
  name : String
  email : String
  phone : Option String
  date : String
  time : String
  guests : Int
  notes : Option String
  paid : Bool
  payment_reference : Option String
deriving DecidableEq

/-- `ReservationRequest` (main.py): `Reservation` extended with
`pay_now : Optional[bool] = False`. `none` models an explicit JSON null;
an omitted field defaults to `some false`. -/
structure ReservationRequest extends Reservation where
  pay_now : Option Bool := some false
deriving DecidableEq

/-- `AnalyticsEvent` (schemas.py): type, path?, metadata?, user_agent?,
ip?. The open-ended `metadata` dict is never inspected by the code, so it
is embedded as a flat string map. -/
structure AnalyticsEvent where
  type : String
  path : Option String
  metadata : Option (List (String × String))
  user_agent : Option String
  ip : Option String
deriving DecidableEq

/-- The field names declared by the `Reservation` schema in `schemas.py`,
in declaration order. -/
def reservationFields : List String :=
  ["name", "email", "phone", "date", "time", "guests", "notes", "paid",
   "payment_reference"]

/-- `MenuItem.model_dump()`: the document serialization of a `MenuItem`,
fields in declaration order, `None` serialized as null. -/
def dumpMenuItem (m : MenuItem) : Doc :=
  [("name", Val.vStr m.name),
   ("description", valOfOptStr m.description),
   ("price", Val.vRat m.price),
   ("category", Val.vStr m.category),
   ("image_url", valOfOptStr m.image_url),
   ("featured", Val.vBool m.featured),
   ("vegetarian", Val.vBool m.vegetarian)]

/-- `ReservationRequest.model_dump()`: parent-class fields first, then
the subclass field `pay_now`. -/
def dumpReservationRequest (p : ReservationRequest) : Doc :=
  [("name", Val.vStr p.name),
   ("email", Val.vStr p.email),
   ("phone", valOfOptStr p.phone),
   ("date", Val.vStr p.date),
   ("time", Val.vStr p.time),
   ("guests", Val.vInt p.guests),
   ("notes", valOfOptStr p.notes),
   ("paid", Val.vBool p.paid),
   ("payment_reference", valOfOptStr p.payment_reference),
   ("pay_now", valOfOptBool p.pay_now)]

/-- `AnalyticsEvent.model_dump()`. -/
def dumpAnalyticsEvent (e : AnalyticsEvent) : Doc :=
  [("type", Val.vStr e.type),
   ("path", valOfOptStr e.path),
   ("metadata", match e.metadata with
                | none => Val.vNull
                | some kvs => Val.vStrMap kvs),
   ("user_agent", valOfOptStr e.user_agent),
   ("ip", valOfOptStr e.ip)]

/-! ### Pydantic re-validation (`Model(**doc)`)

Pydantic `BaseModel` ignores unknown keys, fills omitted optional fields
with their defaults, rejects type mismatches and constraint violations
(`ge`/`le` bounds). -/

/-- Read a required `str` field. -/
def reqStr (d : Doc) (k : String) : Option String :=
  match lookupKey d k with
  | some (Val.vStr s) => some s
  | _ => none

/-- Read an `Optional[str] = None` field: missing or null is `None`. -/
def optStr (d : Doc) (k : String) : Option (Option String) :=
  match lookupKey d k with
  | some (Val.vStr s) => some (some s)
  | some Val.vNull => some none
  | none => some none
  | _ => none

/-- Read a `bool` field with a declared default. -/
def boolWithDefault (d : Doc) (k : String) (dflt : Bool) : Option Bool :=
  match lookupKey d k with
  | some (Val.vBool b) => some b
  | none => some dflt
  | _ => none

/-- `MenuItem(**doc)`: the second validation pass a list-read handler
performs on each stored document. Enforces `price ≥ 0` (`Field(ge=0)`). -/
def parseMenuItem (d : Doc) : Option MenuItem := do
  let name ← reqStr d "name"
  let description ← optStr d "description"
  let price ← match lookupKey d "price" with
              | some (Val.vRat q) => if 0 ≤ q then some q else none
              | _ => none
  let category ← reqStr d "category"
  let image_url ← optStr d "image_url"
  let featured ← boolWithDefault d "featured" false
  let vegetarian ← boolWithDefault d "vegetarian" true
  some ⟨name, description, price, category, image_url, featured, vegetarian⟩

/-- Read an `Optional[int]` field constrained by `ge=lo, le=hi`. -/
def optIntRange (d : Doc) (k : String) (lo hi : Int) : Option (Option Int) :=
  match lookupKey d k with
  | some (Val.vInt n) => if lo ≤ n ∧ n ≤ hi then some (some n) else none
  | some Val.vNull => some none
  | none => some none
  | _ => none

/-- Read an `Optional[datetime] = None` field. -/
def optTime (d : Doc) (k : String) : Option (Option Nat) :=
  match lookupKey d k with
  | some (Val.vTime t) => some (some t)
  | some Val.vNull => some none
  | none => some none
  | _ => none

/-- Read an `Optional[str]` field with a non-null declared default. -/
def optStrWithDefault (d : Doc) (k : String) (dflt : String) :
    Option (Option String) :=
  match lookupKey d k with
  | some (Val.vStr s) => some (some s)
  | some Val.vNull => some none
  | none => some (some dflt)
  | _ => none

/-- `Special(**doc)`: re-validation of a stored special. Enforces
`0 ≤ discount_percent ≤ 100` and the `cta_text` default. -/
def parseSpecial (d : Doc) : Option Special := do
  let title ← reqStr d "title"
  let description ← optStr d "description"
  let discount_percent ← optIntRange d "discount_percent" 0 100
  let valid_until ← optTime d "valid_until"
  let hero_image_url ← optStr d "hero_image_url"
  let cta_text ← optStrWithDefault d "cta_text" "Reserve Now"
  let active ← boolWithDefault d "active" true
  some ⟨title, description, discount_percent, valid_until, hero_image_url,
        cta_text, active⟩

/-! ### Collection naming (`main.py`, `collection_name`) -/

/-- The schema classes defined in `schemas.py`. -/
inductive SchemaClass where
  | menuItem
  | special
  | galleryImage
  | testimonial
  | contactMessage
  | reservation
  | adminUser
  | analyticsEvent
deriving DecidableEq

/-- `model_cls.__name__`: the Python class name of a schema. -/
def className : SchemaClass → String
  | .menuItem => "MenuItem"
  | .special => "Special"
  | .galleryImage => "GalleryImage"
  | .testimonial => "Testimonial"
  | .contactMessage => "ContactMessage"
  | .reservation => "Reservation"
  | .adminUser => "AdminUser"
  | .analyticsEvent => "AnalyticsEvent"

/-- Python `str.lower()`, embedded as a per-character lowercase map over
the string's characters (the schema class names are plain ASCII, on which
`lower()` is exactly the character-wise map). -/
def lowerName (s : String) : String :=
  (s.data.map Char.toLower).asString

/-- `collection_name(model_cls)` (main.py): the lowercase of the schema
class name. -/
def collection_name (c : SchemaClass) : String :=
  lowerName (className c)

/-! ### The document store

`database.py` is not part of the sources; only `main.py` imports `db`,
`create_document` and `get_documents` from it. The three definitions
below are therefore modelled from the spec (§4.1). -/

/-- The document store: connectivity flag (`db is not None`), an
object-id counter for freshly inserted records, and the documents of each
named collection in insertion order. -/
structure Store where
  connected : Bool
  nextId : Nat
  colls : String → List Doc

/-- The documents currently held in a named collection of the store. -/
def collDocs (s : Store) (coll : String) : List Doc :=
  s.colls coll

/-- MongoDB insert semantics for a batch of documents: each document
receives a fresh `_id` (the driver adds the key to the document itself)
and is appended to the collection in order. -/
def assignIds (nid : Nat) : List Doc → List Doc
  | [] => []
  | d :: ds => (("_id", Val.vStr (toString nid)) :: d) :: assignIds (nid + 1) ds

/-- `coll.insert_many(docs)`: append the documents, with fresh ids, to
the named collection. -/
def insert_many (coll : String) (docs : List Doc) (s : Store) : Store :=
  { s with
    nextId := s.nextId + docs.length,
    colls := fun c => if c = coll then s.colls c ++ assignIds s.nextId docs
                      else s.colls c }

/-- Modelled from the spec: `get_documents(collectionName, filter,
limit?)` of the missing `database.py` (§4.1) — an exact-match query over
one collection, returning up to `limit` records in store order, and an
empty list when the store is unavailable (reads degrade silently). -/
def get_documents (coll : String) (flt : List (String × Val))
    (limit : Option Nat) (s : Store) : List Doc :=
  if s.connected then
    let res := (s.colls coll).filter (docMatches flt)
    match limit with
    | some n => res.take n
    | none => res
  else []

/-- Add a timestamp field if the payload does not already carry it. -/
def stampIfAbsent (k : String) (v : Val) (d : Doc) : Doc :=
  if (lookupKey d k).isSome then d else d ++ [(k, v)]

/-- Modelled from the spec: `create_document(collectionName, payload)` of
the missing `database.py` (§4.1) — stamp `created_at`/`updated_at` with
the current server time if not already present, insert the document as a
new record, and return the string form of the new record's id; fail
(`none`, a `StoreUnavailable` condition) when the store has no live
connection. -/
def create_document (coll : String) (payload : Doc) (now : Nat)
    (s : Store) : Option (Store × String) :=
  if s.connected then
    let d := stampIfAbsent "updated_at" (Val.vTime now)
              (stampIfAbsent "created_at" (Val.vTime now) payload)
    some (insert_many coll [d] s, toString s.nextId)
  else none

/-! ### Request handlers (`main.py`) -/

/-- The Python loop `for it in items: cleaned.append(Model(**it))` —
parse every document, failing the whole request on the first
re-validation error. -/
def parseAll {α β : Type} (f : α → Option β) : List α → Option (List β)
  | [] => some []
  | a :: as_ => do
    let b ← f a
    let bs ← parseAll f as_
    some (b :: bs)

/-- The filter mapping built by `get_menu`: `category` is added only when
truthy (non-`None` and non-empty), `featured` whenever it is not `None`. -/
def menuFlt (category : Option String) (featured : Option Bool) :
    List (String × Val) :=
  (match category with
   | some c => if c ≠ "" then [("category", Val.vStr c)] else []
   | none => []) ++
  (match featured with
   | some b => [("featured", Val.vBool b)]
   | none => [])

/-- `GET /api/menu` (main.py `get_menu`): build the filter, fetch the
documents, strip `_id`, re-validate each through `MenuItem`. -/
def get_menu (category : Option String) (featured : Option Bool)
    (s : Store) : Option (List MenuItem) :=
  let items := get_documents (collection_name .menuItem)
                 (menuFlt category featured) none s
  parseAll parseMenuItem (items.map popId)

/-- The filter mapping built by `get_specials`: the handler's parameter
defaults to `True`; a truthy value scopes the query to `active: True`, a
falsy one applies no filter. -/
def specialsFlt (active : Option Bool) : List (String × Val) :=
  if active.getD true then [("active", Val.vBool true)] else []

/-- `GET /api/specials` (main.py `get_specials`); `none` for the `active`
argument models an omitted query parameter (FastAPI then applies the
declared default `True`). -/
def get_specials (active : Option Bool) (s : Store) : Option (List Special) :=
  let docs := get_documents (collection_name .special) (specialsFlt active)
                none s
  parseAll parseSpecial (docs.map popId)

/-- The response of `POST /api/reservations`. -/
structure ReservationResponse where
  status : String
  reference : String
  payment_reference : Option String
deriving DecidableEq

/-- `POST /api/reservations` (main.py `submit_reservation`): compute the
placeholder payment reference (`PAY-<unix timestamp>` exactly when
`pay_now` is truthy), store the dumped request with the reference
attached, and echo the reference back. `none` models the store being
unavailable (the write fails loudly). -/
def submit_reservation (p : ReservationRequest) (now : Nat) (s : Store) :
    Option (Store × ReservationResponse) :=
  let payment_reference :=
    if p.pay_now.getD false then some ("PAY-" ++ toString now) else none
  let data := setKey (dumpReservationRequest p) "payment_reference"
                (valOfOptStr payment_reference)
  match create_document (collection_name .reservation) data now s with
  | some (s', ref) => some (s', ⟨"ok", ref, payment_reference⟩)
  | none => none

/-- Abstract rendering of `datetime.utcnow().isoformat()` at clock value
`t` — an ISO-8601 string; only its provenance from the server clock
matters to the code. -/
def isoformat (t : Nat) : String :=
  "1970-01-01T00:00:" ++ toString t

/-- The response of `POST /api/analytics`. -/
structure AnalyticsResponse where
  status : String
  ref : String
deriving DecidableEq

/-- `POST /api/analytics` (main.py `track_analytics`): dump the event,
overwrite `ip` with the request's client address (`None` when the request
has no client) and `received_at` with the current server time, then
persist. -/
def track_analytics (e : AnalyticsEvent) (clientHost : Option String)
    (now : Nat) (s : Store) : Option (Store × AnalyticsResponse) :=
  let data := dumpAnalyticsEvent e
  let data := setKey data "ip" (valOfOptStr clientHost)
  let data := setKey data "received_at" (Val.vStr (isoformat now))
  match create_document (collection_name .analyticsEvent) data now s with
  | some (s', ref) => some (s', ⟨"ok", ref⟩)
  | none => none

/-- One document of the bulk menu import: `it.model_dump()` plus the two
server timestamps assigned in the import loop. -/
def stampImport (t : Nat) (m : MenuItem) : Doc :=
  dumpMenuItem m ++ [("created_at", Val.vTime t), ("updated_at", Val.vTime t)]

/-- `POST /admin/import-menu` (main.py `import_menu`): raise 500 (`none`)
when the store is unavailable, otherwise stamp and bulk-insert every item
(skipping the insert call for an empty batch) and report the count. -/
def import_menu (items : List MenuItem) (t : Nat) (s : Store) :
    Option (Store × String) :=
  if s.connected then
    let docs := items.map (stampImport t)
    let s' := if docs.isEmpty then s
              else insert_many (collection_name .menuItem) docs s
    some (s', "Imported " ++ toString docs.length ++ " menu items")
  else none

/-- The sort key of `list_reservations`:
`x.get("created_at", datetime.min)`, with `datetime.min` embedded as `0`.
The code only ever stores datetimes under `created_at`. -/
def createdKey (d : Doc) : Nat :=
  match lookupKey d "created_at" with
  | some (Val.vTime t) => t
  | _ => 0

/-- `GET /admin/reservations` (main.py `list_reservations`): fetch up to
`limit` raw records, strip `_id`, and stable-sort latest first
(`out.sort(key=..., reverse=True)`; `List.insertionSort` with this
relation inserts each element before its ties exactly as Python's stable
sort keeps original order among equal keys). -/
def list_reservations (limit : Nat) (s : Store) : List Doc :=
  let docs := get_documents (collection_name .reservation) [] (some limit) s
  List.insertionSort (fun a b => createdKey b ≤ createdKey a)
    (docs.map popId)

/-! ### Diagnostics endpoint (`main.py`, `test_database`) -/

/-- The observable state of the database layer as seen by `/test`:
whether `db` is not `None`, the value of `db.name` when the object
exposes one, the outcome of `db.list_collection_names()` (a name list, or
the raised error's message), and the message of any other unexpected
exception raised inside the handler's outer `try` (`none` in every normal
run — nothing else in the body can raise). -/
structure DbState where
  dbSome : Bool
  dbName : Option String
  listCollections : Except String (List String)
  outerError : Option String

/-- The two environment variables whose presence `/test` reports. -/
structure Env where
  databaseUrl : Option String
  databaseName : Option String

/-- The snapshot object returned by `GET /test`. The two
`database_url`/`database_name` slots start out as JSON null (`none`) and
are overwritten with strings before the handler returns. -/
structure TestResponse where
  backend : String
  database : String
  database_url : Option String
  database_name : Option String
  connection_status : String
  collections : List String
deriving DecidableEq

/-- The "Set"/"Not Set" presence report for one environment variable. -/
def envPresence (v : Option String) : String :=
  if v.isSome then "✅ Set" else "❌ Not Set"

/-- `GET /test` (main.py `test_database`): build the default snapshot,
update it inside a `try` according to the database state (catching
errors from `list_collection_names` separately, with a 50-character
message preview), and finally overwrite `database_url`/`database_name`
with the presence — never the value — of the two environment variables. -/
def test_database (st : DbState) (env : Env) : TestResponse :=
  let r0 : TestResponse :=
    { backend := "✅ Running",
      database := "❌ Not Available",
      database_url := none,
      database_name := none,
      connection_status := "Not Connected",
      collections := [] }
  let r1 :=
    match st.outerError with
    | some e => { r0 with database := "❌ Error: " ++ preview e }
    | none =>
      if st.dbSome then
        let ra := { r0 with
          database := "✅ Available",
          database_url := some (envPresence env.databaseUrl),
          database_name := some (match st.dbName with
                                 | some n => n
                                 | none => "✅ Connected"),
          connection_status := "Connected" }
        match st.listCollections with
        | .ok cs => { ra with collections := cs.take 10,
                              database := "✅ Connected & Working" }
        | .error e =>
            { ra with database := "⚠️  Connected but Error: " ++ preview e }
      else { r0 with database := "⚠️  Available but not initialized" }
  { r1 with
    database_url := some (envPresence env.databaseUrl),
    database_name := some (envPresence env.databaseName) }

/-! ### Helper lemmas -/

theorem lookupKey_popId (d : Doc) (k : String) (hk : ¬ k = "_id") :
    lookupKey (popId d) k = lookupKey d k := by
  have hk' : ¬ "_id" = k := fun h => hk h.symm
  induction d with
  | nil => rfl
  | cons kv ds ih =>
    by_cases h1 : kv.1 = "_id"
    · simp [popId, lookupKey, List.find?, List.filter, h1, hk, hk'] at ih ⊢
      exact ih
    · by_cases h2 : kv.1 = k
      · simp [popId, lookupKey, List.find?, List.filter, h1, h2, hk, hk']
      · simp [popId, lookupKey, List.find?, List.filter, h1, h2, hk, hk']
          at ih ⊢
        exact ih

theorem parseAll_mem {α β : Type} (f : α → Option β) :
    ∀ (l : List α) (out : List β), parseAll f l = some out →
      ∀ x ∈ out, ∃ a ∈ l, f a = some x := by
  intro l
  induction l with
  | nil =>
    intro out h x hx
    simp [parseAll] at h
    subst h
    simp at hx
  | cons a as_ ih =>
    intro out h x hx
    unfold parseAll at h
    cases hfa : f a with
    | none => rw [hfa] at h; simp at h
    | some b =>
      rw [hfa] at h
      cases hrest : parseAll f as_ with
      | none => rw [hrest] at h; simp at h
      | some bs =>
        rw [hrest] at h
        simp at h
        subst h
        rcases List.mem_cons.mp hx with hxb | hxbs
        · exact ⟨a, List.mem_cons_self a as_, by rw [hfa, hxb]⟩
        · obtain ⟨a', ha', hfa'⟩ := ih bs hrest x hxbs
          exact ⟨a', List.mem_cons_of_mem a ha', hfa'⟩

/-! ### C3 — collection naming convention -/

/-- C3: for every entity schema used by a handler, the collection name
passed to the document-store adapter is exactly the lowercase of the
schema's class name. -/
theorem collection_name_is_lowercase_of_class_name :
    collection_name .menuItem = "menuitem" ∧
    collection_name .special = "special" ∧
    collection_name .galleryImage = "galleryimage" ∧
    collection_name .testimonial = "testimonial" ∧
    collection_name .contactMessage = "contactmessage" ∧
    collection_name .reservation = "reservation" ∧
    collection_name .analyticsEvent = "analyticsevent" := by
  decide

/-! ### C4 — payment reference on reservation submission -/

/-- C4: for every reservation submitted via `POST /api/reservations`
(while the store is reachable, so that the write succeeds), the response
carries a non-null payment reference exactly when `pay_now` is true — the
placeholder `PAY-<unix time>` token — and a null one when `pay_now` is
false, omitted (default false), or null. -/
theorem submit_reservation_payment_reference (p : ReservationRequest)
    (now : Nat) (s : Store) (hc : s.connected = true) :
    ∃ s' r, submit_reservation p now s = some (s', r) ∧
      (p.pay_now = some true →
        r.payment_reference = some ("PAY-" ++ toString now)) ∧
      (p.pay_now ≠ some true → r.payment_reference = none) := by
  unfold submit_reservation create_document
  rw [hc]
  refine ⟨_, _, rfl, ?_, ?_⟩
  · intro h
    simp [h]
  · intro h
    cases hb : p.pay_now with
    | none => simp [hb]
    | some b =>
      cases b with
      | false => simp [hb]
      | true => exact absurd hb h

/-- A concrete reservation request with payment requested. -/
def reservationReqA : ReservationRequest :=
  { name := "Ada", email := "ada@example.com", phone := none,
    date := "2026-01-01", time := "19:00", guests := 2, notes := none,
    paid := false, payment_reference := none, pay_now := some true }

/-- A concrete store with a live connection and empty collections. -/
def emptyStore : Store :=
  { connected := true, nextId := 0, colls := fun _ => [] }

/-- Witness for C4 at a concrete reservation and store. -/
theorem submit_reservation_payment_reference_witness :
    emptyStore.connected = true ∧
    ∃ s' r, submit_reservation reservationReqA 42 emptyStore = some (s', r) ∧
      (reservationReqA.pay_now = some true →
        r.payment_reference = some ("PAY-" ++ toString 42)) ∧
      (reservationReqA.pay_now ≠ some true → r.payment_reference = none) :=
  ⟨rfl, submit_reservation_payment_reference reservationReqA 42 emptyStore rfl⟩

/-! ### C9 — the persisted reservation record stores `pay_now` -/

/-- C9: every reservation write persists one new document in the
`reservation` collection, and that document carries the `pay_now` flag as
a stored field — a field that is not among those declared by the
`Reservation` entity schema. -/
theorem submit_reservation_persists_pay_now (p : ReservationRequest)
    (now : Nat) (s : Store) (hc : s.connected = true) :
    ∃ s' r d, submit_reservation p now s = some (s', r) ∧
      collDocs s' (collection_name .reservation) =
        collDocs s (collection_name .reservation) ++ [d] ∧
      lookupKey d "pay_now" = some (valOfOptBool p.pay_now) ∧
      ¬ "pay_now" ∈ reservationFields := by
  unfold submit_reservation create_document
  rw [hc]
  simp only [if_true]
  refine ⟨_, _, ("_id", Val.vStr (toString s.nextId)) ::
      stampIfAbsent "updated_at" (Val.vTime now)
        (stampIfAbsent "created_at" (Val.vTime now)
          (setKey (dumpReservationRequest p) "payment_reference"
            (valOfOptStr
              (if p.pay_now.getD false then some ("PAY-" ++ toString now)
               else none)))),
    rfl, ?_, ?_, ?_⟩
  · simp [collDocs, insert_many, assignIds]
  · simp [setKey, dumpReservationRequest, stampIfAbsent, lookupKey,
          List.find?, List.filter]
  · decide

/-- Witness for C9 at a concrete reservation and store. -/
theorem submit_reservation_persists_pay_now_witness :
    emptyStore.connected = true ∧
    ∃ s' r d, submit_reservation reservationReqA 7 emptyStore = some (s', r) ∧
      collDocs s' (collection_name .reservation) =
        collDocs emptyStore (collection_name .reservation) ++ [d] ∧
      lookupKey d "pay_now" = some (valOfOptBool reservationReqA.pay_now) ∧
      ¬ "pay_now" ∈ reservationFields :=
  ⟨rfl, submit_reservation_persists_pay_now reservationReqA 7 emptyStore rfl⟩

/-! ### C5 — analytics records carry server-stamped `ip`/`received_at` -/

/-- C5: every analytics write (while the store is reachable) persists one
new document in the `analyticsevent` collection whose `ip` field equals
the request's client address and whose `received_at` field equals the
server clock reading — both present, for every event, whatever `ip` value
the client put in the event body. -/
theorem track_analytics_server_stamps (e : AnalyticsEvent)
    (host : Option String) (now : Nat) (s : Store)
    (hc : s.connected = true) :
    ∃ s' r d, track_analytics e host now s = some (s', r) ∧
      collDocs s' (collection_name .analyticsEvent) =
        collDocs s (collection_name .analyticsEvent) ++ [d] ∧
      lookupKey d "ip" = some (valOfOptStr host) ∧
      lookupKey d "received_at" = some (Val.vStr (isoformat now)) := by
  unfold track_analytics create_document
  rw [hc]
  simp only [if_true]
  refine ⟨_, _, ("_id", Val.vStr (toString s.nextId)) ::
      stampIfAbsent "updated_at" (Val.vTime now)
        (stampIfAbsent "created_at" (Val.vTime now)
          (setKey (setKey (dumpAnalyticsEvent e) "ip" (valOfOptStr host))
            "received_at" (Val.vStr (isoformat now)))),
    rfl, ?_, ?_, ?_⟩
  · simp [collDocs, insert_many, assignIds]
  · simp [setKey, dumpAnalyticsEvent, stampIfAbsent, lookupKey,
          List.find?, List.filter]
  · simp [setKey, dumpAnalyticsEvent, stampIfAbsent, lookupKey,
          List.find?, List.filter]

/-- A concrete analytics event whose body claims a client-chosen `ip`. -/
def analyticsEventA : AnalyticsEvent :=
  { type := "page_view", path := some "/menu", metadata := none,
    user_agent := none, ip := some "203.0.113.9" }

/-- Witness for C5: the client-supplied `ip` of `analyticsEventA` is
overridden by the server-derived address. -/
theorem track_analytics_server_stamps_witness :
    emptyStore.connected = true ∧
    ∃ s' r d,
      track_analytics analyticsEventA (some "198.51.100.7") 5 emptyStore =
        some (s', r) ∧
      collDocs s' (collection_name .analyticsEvent) =
        collDocs emptyStore (collection_name .analyticsEvent) ++ [d] ∧
      lookupKey d "ip" = some (valOfOptStr (some "198.51.100.7")) ∧
      lookupKey d "received_at" = some (Val.vStr (isoformat 5)) :=
  ⟨rfl, track_analytics_server_stamps analyticsEventA (some "198.51.100.7") 5
    emptyStore rfl⟩

/-! ### C8 — menu import is create-only, no dedup/upsert -/

/-- Strip the store-internal identifier and the two server timestamps
from a document, leaving the client-visible payload fields. -/
def stripServer (d : Doc) : Doc :=
  d.filter (fun kv =>
    kv.1 != "_id" && kv.1 != "created_at" && kv.1 != "updated_at")

theorem assignIds_length (ds : List Doc) :
    ∀ n, (assignIds n ds).length = ds.length := by
  induction ds with
  | nil => intro n; rfl
  | cons d ds ih => intro n; simp [assignIds, ih]

theorem assignIds_stampImport_strip (items : List MenuItem) (t : Nat) :
    ∀ n, (assignIds n (items.map (stampImport t))).map stripServer =
      items.map dumpMenuItem := by
  induction items with
  | nil => intro n; rfl
  | cons m ms ih =>
    intro n
    simp only [List.map_cons, assignIds, ih]
    simp [stripServer, stampImport, dumpMenuItem, List.filter]

/-- C8: running the menu import twice with the same payload of `N` items
(store reachable, else the import raises 500) adds `N` records on the
first run and `N` further records on the second: the collection ends with
both stamped copies appended after its prior contents, and stripped of
server-assigned fields those copies are the item payloads twice over —
no deduplication or upsert takes place. -/
theorem import_menu_twice_appends (items : List MenuItem) (t1 t2 : Nat)
    (s : Store) (hc : s.connected = true) :
    ∃ s1 m1 s2 m2, import_menu items t1 s = some (s1, m1) ∧
      import_menu items t2 s1 = some (s2, m2) ∧
      (collDocs s1 (collection_name .menuItem)).length =
        (collDocs s (collection_name .menuItem)).length + items.length ∧
      (collDocs s2 (collection_name .menuItem)).length =
        (collDocs s1 (collection_name .menuItem)).length + items.length ∧
      (collDocs s2 (collection_name .menuItem)).map stripServer =
        (collDocs s (collection_name .menuItem)).map stripServer ++
          items.map dumpMenuItem ++ items.map dumpMenuItem := by
  cases items with
  | nil =>
    have h1 : ∀ t : Nat, import_menu [] t s =
        some (s, "Imported " ++ toString (List.length ([] : List Doc))
                   ++ " menu items") := by
      intro t
      unfold import_menu
      rw [if_pos hc]
      rfl
    refine ⟨s, _, s, _, h1 t1, h1 t2, ?_, ?_, ?_⟩ <;> simp
  | cons i is =>
    have h1 : import_menu (i :: is) t1 s =
        some (insert_many (collection_name .menuItem)
                ((i :: is).map (stampImport t1)) s,
              "Imported " ++ toString ((i :: is).map (stampImport t1)).length
                ++ " menu items") := by
      simp [import_menu, hc, List.isEmpty]
    have h2 : import_menu (i :: is) t2
        (insert_many (collection_name .menuItem)
          ((i :: is).map (stampImport t1)) s) =
        some (insert_many (collection_name .menuItem)
                ((i :: is).map (stampImport t2))
                (insert_many (collection_name .menuItem)
                  ((i :: is).map (stampImport t1)) s),
              "Imported " ++ toString ((i :: is).map (stampImport t2)).length
                ++ " menu items") := by
      simp [import_menu, insert_many, hc, List.isEmpty]
    refine ⟨_, _, _, _, h1, h2, ?_, ?_, ?_⟩
    · simp [collDocs, insert_many, assignIds_length]
    · simp [collDocs, insert_many, assignIds_length]
      omega
    · simp only [collDocs, insert_many, if_true]
      rw [List.map_append, List.map_append,
          assignIds_stampImport_strip (i :: is) t1,
          assignIds_stampImport_strip (i :: is) t2, List.append_assoc]

/-- A pair of concrete menu items for the import witnesses. -/
def menuItemA : MenuItem :=
  { name := "Margherita", description := none, price := 9,
    category := "Pizzas", image_url := none, featured := false,
    vegetarian := true }

/-- Witness for C8 at a concrete two-item payload and store. -/
theorem import_menu_twice_appends_witness :
    emptyStore.connected = true ∧
    ∃ s1 m1 s2 m2,
      import_menu [menuItemA, menuItemA] 1 emptyStore = some (s1, m1) ∧
      import_menu [menuItemA, menuItemA] 2 s1 = some (s2, m2) ∧
      (collDocs s1 (collection_name .menuItem)).length =
        (collDocs emptyStore (collection_name .menuItem)).length +
          [menuItemA, menuItemA].length ∧
      (collDocs s2 (collection_name .menuItem)).length =
        (collDocs s1 (collection_name .menuItem)).length +
          [menuItemA, menuItemA].length ∧
      (collDocs s2 (collection_name .menuItem)).map stripServer =
        (collDocs emptyStore (collection_name .menuItem)).map stripServer ++
          [menuItemA, menuItemA].map dumpMenuItem ++
          [menuItemA, menuItemA].map dumpMenuItem :=
  ⟨rfl, import_menu_twice_appends [menuItemA, menuItemA] 1 2 emptyStore rfl⟩

/-! ### C1 — import then list is the identity on valid items -/

/-- Re-validating a freshly imported menu document recovers the imported
item exactly: the parser ignores the two server timestamps and the
`ge=0` price check passes for a valid payload. -/
theorem parseMenuItem_stampImport (m : MenuItem) (t : Nat)
    (hp : 0 ≤ m.price) : parseMenuItem (stampImport t m) = some m := by
  obtain ⟨na, de, pr, ca, im, fe, ve⟩ := m
  simp only at hp
  cases de <;> cases im <;>
    simp [parseMenuItem, stampImport, dumpMenuItem, reqStr, optStr,
          boolWithDefault, lookupKey, valOfOptStr, List.find?, hp]

/-- Stripping the store id from a freshly imported menu document leaves
the stamped payload unchanged (none of its keys is `_id`). -/
theorem popId_stampImport (v : Val) (m : MenuItem) (t : Nat) :
    popId (("_id", v) :: stampImport t m) = stampImport t m := by
  simp [popId, stampImport, dumpMenuItem, List.filter]

/-- C1: importing a valid `MenuItem` payload (`price ≥ 0`) via
`POST /admin/import-menu` into a reachable store whose menu collection is
empty and then listing via `GET /api/menu` with no filters returns
exactly the imported payload, field for field — the server-stamped
timestamps and the store-internal `_id` are stripped or ignored on the
way out. -/
theorem import_then_list_roundtrip (m : MenuItem) (t : Nat) (s : Store)
    (hc : s.connected = true)
    (h0 : collDocs s (collection_name .menuItem) = [])
    (hp : 0 ≤ m.price) :
    ∃ s' msg, import_menu [m] t s = some (s', msg) ∧
      get_menu none none s' = some [m] := by
  unfold collDocs at h0
  have h1 : import_menu [m] t s =
      some (insert_many (collection_name .menuItem) [stampImport t m] s,
            "Imported " ++ toString [stampImport t m].length
              ++ " menu items") := by
    unfold import_menu
    rw [if_pos hc]
    rfl
  refine ⟨_, _, h1, ?_⟩
  have hdocs : (insert_many (collection_name .menuItem) [stampImport t m]
      s).colls (collection_name .menuItem) =
      [("_id", Val.vStr (toString s.nextId)) :: stampImport t m] := by
    simp [insert_many, assignIds, h0]
  unfold get_menu get_documents
  rw [if_pos (show (insert_many (collection_name .menuItem)
        [stampImport t m] s).connected = true from hc)]
  rw [hdocs]
  simp [menuFlt, docMatches, popId_stampImport, parseAll,
        parseMenuItem_stampImport m t hp]

/-- Witness for C1 at a concrete valid menu item and an empty store. -/
theorem import_then_list_roundtrip_witness :
    emptyStore.connected = true ∧
    collDocs emptyStore (collection_name .menuItem) = [] ∧
    0 ≤ menuItemA.price ∧
    ∃ s' msg, import_menu [menuItemA] 3 emptyStore = some (s', msg) ∧
      get_menu none none s' = some [menuItemA] :=
  ⟨rfl, rfl, by decide,
   import_then_list_roundtrip menuItemA 3 emptyStore rfl rfl (by decide)⟩

/-! ### C2 — the `active` filter of `/api/specials` -/

/-- A special that re-validates from a stored document whose `active`
field is `true` has `active = true` itself. -/
theorem parseSpecial_active {d : Doc} {x : Special}
    (hp : parseSpecial d = some x)
    (ha : lookupKey d "active" = some (Val.vBool true)) : x.active = true := by
  have hb : boolWithDefault d "active" true = some true := by
    unfold boolWithDefault
    rw [ha]
  unfold parseSpecial at hp
  rw [hb] at hp
  cases h1 : reqStr d "title" with
  | none => rw [h1] at hp; simp at hp
  | some title =>
  rw [h1] at hp
  cases h2 : optStr d "description" with
  | none => rw [h2] at hp; simp at hp
  | some de =>
  rw [h2] at hp
  cases h3 : optIntRange d "discount_percent" 0 100 with
  | none => rw [h3] at hp; simp at hp
  | some dp =>
  rw [h3] at hp
  cases h4 : optTime d "valid_until" with
  | none => rw [h4] at hp; simp at hp
  | some vu =>
  rw [h4] at hp
  cases h5 : optStr d "hero_image_url" with
  | none => rw [h5] at hp; simp at hp
  | some hi =>
  rw [h5] at hp
  cases h6 : optStrWithDefault d "cta_text" "Reserve Now" with
  | none => rw [h6] at hp; simp at hp
  | some ct =>
  rw [h6] at hp
  simp at hp
  rw [← hp]

/-- C2: with the `active` query parameter omitted, `GET /api/specials`
returns only specials whose `active` field is true; with an explicit
`active=false`, the handler's filter is empty, so the query returns every
stored record of the collection regardless of its `active` field. -/
theorem get_specials_active_filter :
    (∀ (s : Store) (out : List Special), get_specials none s = some out →
       ∀ x ∈ out, x.active = true) ∧
    (∀ s : Store, s.connected = true →
       get_documents (collection_name .special) (specialsFlt (some false))
         none s = collDocs s (collection_name .special)) := by
  constructor
  · intro s out hout x hx
    unfold get_specials at hout
    obtain ⟨d, hd, hparse⟩ := parseAll_mem parseSpecial _ out hout x hx
    obtain ⟨d0, hd0, rfl⟩ := List.mem_map.mp hd
    have hmatch : docMatches (specialsFlt none) d0 = true := by
      unfold get_documents at hd0
      by_cases hcs : s.connected = true
      · rw [if_pos hcs] at hd0
        exact (List.mem_filter.mp hd0).2
      · rw [if_neg hcs] at hd0
        simp at hd0
    have ha : lookupKey d0 "active" = some (Val.vBool true) := by
      have : specialsFlt none = [("active", Val.vBool true)] := rfl
      rw [this] at hmatch
      unfold docMatches at hmatch
      simp at hmatch
      exact hmatch
    refine parseSpecial_active hparse ?_
    rw [lookupKey_popId d0 "active" (by decide)]
    exact ha
  · intro s hcs
    unfold get_documents
    rw [if_pos hcs]
    show List.filter _ _ = _
    have hflt : specialsFlt (some false) = [] := rfl
    rw [hflt]
    unfold collDocs
    simp [docMatches]

/-- A concrete special record and a one-record store for the C2
witness. -/
def specialA : Special :=
  { title := "Happy Hour", description := none, discount_percent := none,
    valid_until := none, hero_image_url := none,
    cta_text := some "Reserve Now", active := true }

/-- A store whose `special` collection holds exactly one active
special. -/
def specialsStore : Store :=
  { connected := true, nextId := 1,
    colls := fun c =>
      if c = "special" then
        [[("_id", Val.vStr "0"), ("title", Val.vStr "Happy Hour"),
          ("active", Val.vBool true)]]
      else [] }

/-- Witness for C2 at the one-record store. -/
theorem get_specials_active_filter_witness :
    specialA.active = true ∧
    get_documents (collection_name .special) (specialsFlt (some false))
      none specialsStore = collDocs specialsStore (collection_name .special) :=
  ⟨get_specials_active_filter.1 specialsStore [specialA] (by decide)
     specialA (by decide),
   get_specials_active_filter.2 specialsStore rfl⟩

/-! ### C10 — tri-state filters of `/api/menu` -/

/-- C10: in `GET /api/menu`, an omitted `category` and an empty-string
`category` build the same (absent) category filter; with no parameters at
all the query returns every stored menu document; the `featured`
parameter is applied as an exact filter whenever it is provided, for both
`featured=true` and `featured=false`; and with `featured` omitted the
filter constrains only the category. -/
theorem get_menu_tri_state_filters :
    (∀ (f : Option Bool) (s : Store), get_menu (some "") f s =
       get_menu none f s) ∧
    (∀ s : Store, s.connected = true →
       get_documents (collection_name .menuItem) (menuFlt none none) none s =
         collDocs s (collection_name .menuItem)) ∧
    (∀ (b : Bool) (d : Doc),
       docMatches (menuFlt none (some b)) d = true ↔
         lookupKey d "featured" = some (Val.vBool b)) ∧
    (∀ (c : String) (d : Doc), ¬ c = "" →
       (docMatches (menuFlt (some c) none) d = true ↔
         lookupKey d "category" = some (Val.vStr c))) := by
  refine ⟨?_, ?_, ?_, ?_⟩
  · intro f s
    have h : menuFlt (some "") f = menuFlt none f := by
      simp [menuFlt]
    unfold get_menu
    rw [h]
  · intro s hcs
    unfold get_documents
    rw [if_pos hcs]
    show List.filter _ _ = _
    have hflt : menuFlt none none = [] := rfl
    rw [hflt]
    unfold collDocs
    simp [docMatches]
  · intro b d
    simp [menuFlt, docMatches]
  · intro c d hc
    simp [menuFlt, docMatches, hc]

/-- Witness for C10 at a concrete store. -/
theorem get_menu_tri_state_filters_witness :
    get_documents (collection_name .menuItem) (menuFlt none none) none
      specialsStore = collDocs specialsStore (collection_name .menuItem) ∧
    (docMatches (menuFlt (some "Pizzas") none)
        [("category", Val.vStr "Pizzas")] = true ↔
      lookupKey [("category", Val.vStr "Pizzas")] "category" =
        some (Val.vStr "Pizzas")) :=
  ⟨get_menu_tri_state_filters.2.1 specialsStore rfl,
   get_menu_tri_state_filters.2.2.2 "Pizzas" [("category", Val.vStr "Pizzas")]
     (by decide)⟩

/-! ### C7 — the diagnostics endpoint -/

theorem preview_length_le (s : String) : (preview s).length ≤ 50 := by
  show (s.toList.take 50).length ≤ 50
  simp [List.length_take]

/-- C7: for every database state — including a fully disconnected store
and a collection listing that raises — and every environment, `/test`
returns a well-formed snapshot (the handler is a total function into
`TestResponse`): the liveness and connection fields hold fixed status
strings, the two configuration slots report only the presence of the
respective environment variable (via `envPresence`, which inspects
`isSome` alone, never the value), at most 10 collection names are
echoed, and the `database` status is a fixed string or carries an error
message truncated to a 50-character preview. -/
theorem test_database_snapshot (st : DbState) (env : Env) :
    (test_database st env).backend = "✅ Running" ∧
    (test_database st env).database_url = some (envPresence env.databaseUrl) ∧
    (test_database st env).database_name =
      some (envPresence env.databaseName) ∧
    ((test_database st env).connection_status = "Connected" ∨
      (test_database st env).connection_status = "Not Connected") ∧
    (test_database st env).collections.length ≤ 10 ∧
    ((test_database st env).database = "✅ Connected & Working" ∨
     (test_database st env).database = "⚠️  Available but not initialized" ∨
     (∃ m : String,
       ((test_database st env).database =
          "⚠️  Connected but Error: " ++ preview m ∨
        (test_database st env).database = "❌ Error: " ++ preview m) ∧
       (preview m).length ≤ 50)) := by
  obtain ⟨dbSome, dbName, listC, outer⟩ := st
  cases outer with
  | some e =>
    exact ⟨rfl, rfl, rfl, Or.inr rfl, by simp [test_database],
           Or.inr (Or.inr ⟨e, Or.inr rfl, preview_length_le e⟩)⟩
  | none =>
    cases dbSome with
    | false =>
      exact ⟨rfl, rfl, rfl, Or.inr rfl, by simp [test_database],
             Or.inr (Or.inl rfl)⟩
    | true =>
      cases listC with
      | ok cs =>
        refine ⟨rfl, rfl, rfl, Or.inl rfl, ?_, Or.inl rfl⟩
        simp [test_database, List.length_take]
      | error e =>
        exact ⟨rfl, rfl, rfl, Or.inl rfl, by simp [test_database],
               Or.inr (Or.inr ⟨e, Or.inl rfl, preview_length_le e⟩)⟩

/-! ### C6 — sort order of `/admin/reservations` -/

/-- Amended C6: the output of `GET /admin/reservations` is sorted by
`created_at` descending, a missing `created_at` counting as
`datetime.min` (embedded as `0`); consequently every record lacking
`created_at` appears after all records whose `created_at` is strictly
later than `datetime.min`. (A stored record whose `created_at` equals
`datetime.min` itself ties with the missing-timestamp records, and the
stable sort then preserves input order — see the counterexample.) -/
theorem list_reservations_sorted_desc (limit : Nat) (s : Store) :
    List.Sorted (fun a b => createdKey b ≤ createdKey a)
      (list_reservations limit s) ∧
    ∀ (i j : Nat) (hi : i < (list_reservations limit s).length)
      (hj : j < (list_reservations limit s).length),
      lookupKey ((list_reservations limit s).get ⟨i, hi⟩) "created_at" =
        none →
      0 < createdKey ((list_reservations limit s).get ⟨j, hj⟩) →
      j < i := by
  have hsorted : List.Sorted (fun a b => createdKey b ≤ createdKey a)
      (list_reservations limit s) := by
    unfold list_reservations
    haveI : IsTotal Doc (fun a b => createdKey b ≤ createdKey a) :=
      ⟨fun a b => Nat.le_total _ _⟩
    haveI : IsTrans Doc (fun a b => createdKey b ≤ createdKey a) :=
      ⟨fun a b c h1 h2 => le_trans h2 h1⟩
    exact List.sorted_insertionSort _ _
  refine ⟨hsorted, ?_⟩
  intro i j hi hj hnone hpos
  have hk0 : createdKey ((list_reservations limit s).get ⟨i, hi⟩) = 0 := by
    unfold createdKey
    rw [hnone]
  by_contra hji
  push_neg at hji
  rcases eq_or_lt_of_le hji with heq | hlt
  · subst heq
    rw [hk0] at hpos
    exact Nat.lt_irrefl 0 hpos
  · have hrel := hsorted.rel_get_of_lt
      (show (⟨i, hi⟩ : Fin (list_reservations limit s).length) < ⟨j, hj⟩
       from hlt)
    simp only at hrel
    omega

/-- A store whose `reservation` collection holds a timestamped record
followed by one with no `created_at`. -/
def reservationsStoreW : Store :=
  { connected := true, nextId := 2,
    colls := fun c =>
      if c = "reservation" then
        [[("name", Val.vStr "h"), ("created_at", Val.vTime 5)],
         [("name", Val.vStr "m")]]
      else [] }

/-- Witness for the amended C6 at a concrete store: the record lacking
`created_at` (index 1) comes after the one stamped at time 5 (index 0). -/
theorem list_reservations_sorted_desc_witness :
    List.Sorted (fun a b => createdKey b ≤ createdKey a)
      (list_reservations 100 reservationsStoreW) ∧ (0 : Nat) < 1 :=
  ⟨(list_reservations_sorted_desc 100 reservationsStoreW).1,
   (list_reservations_sorted_desc 100 reservationsStoreW).2 1 0
     (by decide) (by decide) (by decide) (by decide)⟩

/-- A store holding a reservation record with no `created_at` followed by
one whose `created_at` is exactly `datetime.min`. -/
def reservationsStoreX : Store :=
  { connected := true, nextId := 2,
    colls := fun c =>
      if c = "reservation" then
        [[("name", Val.vStr "m")],
         [("name", Val.vStr "h"), ("created_at", Val.vTime 0)]]
      else [] }

/-- Counterexample to C6 as stated: on `reservationsStoreX` the handler
returns the record lacking `created_at` first — before a record that has
one (`created_at = datetime.min`), because the two sort keys tie and the
stable sort preserves input order. So it is not true that every record
lacking `created_at` appears after all records that have one. -/
theorem list_reservations_missing_not_last :
    list_reservations 100 reservationsStoreX =
      [[("name", Val.vStr "m")],
       [("name", Val.vStr "h"), ("created_at", Val.vTime 0)]] ∧
    lookupKey [("name", Val.vStr "m")] "created_at" = none ∧
    lookupKey [("name", Val.vStr "h"), ("created_at", Val.vTime 0)]
      "created_at" = some (Val.vTime 0) := by
  decide
